import Mathlib

/-!
Shallow embedding of the booking core of the repository: the in-memory
storage (`MemStorage` in the server storage module), the Zod validation
schema `insertBookingSchema` (shared/schema.ts), and the route handlers of
the booking/payment API (server routes module).

Conventions of the embedding:
- JavaScript `Map` objects are association lists with `Map.set` replacing
  in place (JS `Map.set` keeps the original insertion position of an
  existing key) and appending fresh keys at the end; `Map.values()`
  iteration order is the list order.
- Nondeterministic inputs of the code — `randomUUID()`, `Date.now()`,
  `new Date().getFullYear()`, `Math.floor(Math.random() * 999999)` — are
  explicit parameters of the embedded operations.
- JS `String(n)` on a nonnegative integer renders its decimal digits
  (`decDigits`); `.padStart(len, c)` left-pads with copies of `c`.
- The JS truthiness idiom `x || y` on a string-or-absent `x` yields `y`
  exactly when `x` is absent or the empty string (`jsStrOr`).
- Machine numbers that matter here (participants, amount, timestamps,
  years, random draws) are small integers, modelled as `Int`/`Nat`.
-/

/-- The `Booking` record of shared/schema.ts (`bookings` table row).
`totalAmount` is a decimal-as-string, as in the drizzle `decimal` column;
`createdAt` is a timestamp, modelled as milliseconds. -/
structure Booking where
  id : String
  referenceNumber : String
  experienceId : String
  firstName : String
  lastName : String
  email : String
  phone : String
  checkinDate : String
  checkoutDate : String
  participants : Int
  specialRequests : Option String
  totalAmount : String
  paymentStatus : String
  stripePaymentIntentId : Option String
  createdAt : Nat
deriving DecidableEq, Repr

/-- The `InsertBooking` type of shared/schema.ts: the booking fields minus
`id`, `referenceNumber`, `createdAt`, `paymentStatus`,
`stripePaymentIntentId` (the `.omit` of `insertBookingSchema`). -/
structure InsertBooking where
  experienceId : String
  firstName : String
  lastName : String
  email : String
  phone : String
  checkinDate : String
  checkoutDate : String
  participants : Int
  specialRequests : Option String
  totalAmount : String
deriving DecidableEq, Repr

/-- The `Experience` record of shared/schema.ts. -/
structure Experience where
  id : String
  name : String
  description : String
  price : String
  duration : String
  image : String
  type' : String
deriving DecidableEq, Repr

/-- Decimal digits, most significant first, with explicit recursion fuel
(any fuel above the input suffices; see `decDigits`). -/
def decDigitsAux : Nat → Nat → List Char
  | 0, _ => []
  | fuel + 1, n =>
    if n < 10 then [Nat.digitChar n]
    else decDigitsAux fuel (n / 10) ++ [Nat.digitChar (n % 10)]

/-- Decimal digits of a natural number, most significant first: the
embedding of JS `String(n)` for a nonnegative integer `n`. -/
def decDigits (n : Nat) : List Char := decDigitsAux (n + 1) n

/-- JS `String(n)` for a nonnegative integer. -/
def jsNatStr (n : Nat) : String := ⟨decDigits n⟩

/-- JS `s.padStart(len, c)` for a single-character pad: left-pad `s` with
copies of `c` up to length `len` (no-op when `s` is already long enough). -/
def padStart (s : String) (len : Nat) (c : Char) : String :=
  ⟨List.replicate (len - s.data.length) c ++ s.data⟩

/-- JS `x || y` where `x` is a string-or-absent value: `y` exactly when
`x` is absent (`undefined`/`null`) or the empty string (both falsy). -/
def jsStrOr (x : Option String) (y : Option String) : Option String :=
  match x with
  | none => y
  | some s => if s = "" then y else some s

/-- The booking reference number built by `MemStorage.createBooking`:
`SM-` + `String(new Date().getFullYear())` + `-` +
`String(Math.floor(Math.random() * 999999)).padStart(6, '0')`,
with the year and the random draw as parameters. -/
def mkReferenceNumber (year rand : Nat) : String :=
  "SM-" ++ jsNatStr year ++ "-" ++ padStart (jsNatStr rand) 6 '0'

/-- JS `Map` lookup (`Map.get`), over the association-list model. -/
def mapGet {α : Type} (m : List (String × α)) (k : String) : Option α :=
  (m.find? (fun p => p.1 = k)).map (·.2)

/-- JS `Map.set`: replace in place when the key exists (JS `Map.set`
keeps the original insertion position), append otherwise. -/
def mapSet {α : Type} (m : List (String × α)) (k : String) (v : α) :
    List (String × α) :=
  if m.any (fun p => p.1 = k) then
    m.map (fun p => if p.1 = k then (k, v) else p)
  else m ++ [(k, v)]

/-- The mutable state of `MemStorage`: the `experiences` and `bookings`
maps (the `users` map plays no part in the booking flow or the claims). -/
structure MemStorage where
  experiences : List (String × Experience)
  bookings : List (String × Booking)
deriving DecidableEq, Repr

/-- The four seeded experiences of `MemStorage.initializeExperiences`. -/
def initialExperiences : List (String × Experience) :=
  [ ("meditation-retreats",
     { id := "meditation-retreats", name := "Meditation Retreats",
       description := "Join guided meditation sessions with Buddhist monks in serene monastery settings.",
       price := "120.00", duration := "3-7 days",
       image := "https://images.unsplash.com/photo-1506905925346-21bda4d32df4?ixlib=rb-4.0.3&auto=format&fit=crop&w=600&h=300",
       type' := "meditation-retreats" }),
    ("monastery-treks",
     { id := "monastery-treks", name := "Monastery Treks",
       description := "Embark on scenic treks to remote monasteries through pristine Himalayan landscapes.",
       price := "200.00", duration := "5-10 days",
       image := "https://images.unsplash.com/photo-1544735716-392fe2489ffa?ixlib=rb-4.0.3&auto=format&fit=crop&w=600&h=300",
       type' := "monastery-treks" }),
    ("cultural-workshops",
     { id := "cultural-workshops", name := "Cultural Workshops",
       description := "Learn traditional Buddhist arts, crafts, and philosophy from local masters.",
       price := "80.00", duration := "2-5 days",
       image := "https://images.unsplash.com/photo-1578662996442-48f60103fc96?ixlib=rb-4.0.3&auto=format&fit=crop&w=600&h=300",
       type' := "cultural-workshops" }),
    ("sunrise-tours",
     { id := "sunrise-tours", name := "Sunrise Tours",
       description := "Witness breathtaking sunrises over the Himalayas from monastery viewpoints.",
       price := "60.00", duration := "1-2 days",
       image := "https://images.unsplash.com/photo-1506905925346-21bda4d32df4?ixlib=rb-4.0.3&auto=format&fit=crop&w=600&h=300",
       type' := "sunrise-tours" }) ]

/-- The storage state after the `MemStorage` constructor ran. -/
def initialStorage : MemStorage :=
  { experiences := initialExperiences, bookings := [] }

/-- Embedding of `MemStorage.getAllExperiences`: `Array.from(this.experiences.values())`. -/
def getAllExperiences (st : MemStorage) : List Experience :=
  st.experiences.map (·.2)

/-- Embedding of `MemStorage.getExperience`. -/
def getExperience (st : MemStorage) (id : String) : Option Experience :=
  mapGet st.experiences id

/-- Embedding of `MemStorage.getBooking`. -/
def getBooking (st : MemStorage) (id : String) : Option Booking :=
  mapGet st.bookings id

/-- Embedding of `MemStorage.getBookingByReference`: linear scan over `bookings.values()`
for the first exact `referenceNumber` match. -/
def getBookingByReference (st : MemStorage) (ref : String) : Option Booking :=
  ((st.bookings.map (·.2)).find? (fun b => b.referenceNumber = ref))

/-- Embedding of `MemStorage.createBooking`. `id` stands for the `randomUUID()` draw,
`year` for `new Date().getFullYear()`, `rand` for
`Math.floor(Math.random() * 999999)` and `now` for `new Date()`.
Returns the built booking and the updated storage. -/
def createBooking (st : MemStorage) (ib : InsertBooking)
    (id : String) (year rand now : Nat) : Booking × MemStorage :=
  let booking : Booking :=
    { id := id
      referenceNumber := mkReferenceNumber year rand
      experienceId := ib.experienceId
      firstName := ib.firstName
      lastName := ib.lastName
      email := ib.email
      phone := ib.phone
      checkinDate := ib.checkinDate
      checkoutDate := ib.checkoutDate
      participants := ib.participants
      specialRequests := jsStrOr ib.specialRequests none
      totalAmount := ib.totalAmount
      paymentStatus := "pending"
      stripePaymentIntentId := none
      createdAt := now }
  (booking, { st with bookings := mapSet st.bookings id booking })

/-- Embedding of `MemStorage.updateBookingPaymentStatus`: absent when the id is unknown
(storage unchanged); otherwise overwrite the payment status and apply the
`paymentIntentId || booking.stripePaymentIntentId` fallback, store under
the same id, and return the updated record. -/
def updateBookingPaymentStatus (st : MemStorage) (id status : String)
    (paymentIntentId : Option String) : Option Booking × MemStorage :=
  match mapGet st.bookings id with
  | none => (none, st)
  | some booking =>
    let updatedBooking : Booking :=
      { booking with
        paymentStatus := status
        stripePaymentIntentId :=
          jsStrOr paymentIntentId booking.stripePaymentIntentId }
    (some updatedBooking,
     { st with bookings := mapSet st.bookings id updatedBooking })

/-! ## Validation layer: `insertBookingSchema.parse` (shared/schema.ts)

`insertBookingSchema` is `createInsertSchema(bookings).omit(...)`. For the
remaining columns drizzle-zod produces: `z.string()` for every `notNull`
text/varchar column (`experienceId`, `firstName`, `lastName`, `email`,
`phone`, `checkinDate`, `checkoutDate`), `z.number()` for the `notNull`
integer column `participants`, `z.string()` for the decimal-as-string
column `totalAmount`, and `z.string().nullable().optional()` for the
nullable `specialRequests` column. No format refinement (in particular no
email-format check) is attached to any field. Zod object parsing checks
every field and aggregates one issue per failing field. -/

/-- A raw JSON value as it arrives in a request body field. -/
inductive RawVal
  | vstr (s : String)
  | vnum (n : Int)
  | vbool (b : Bool)
  | vnull
deriving DecidableEq, Repr

/-- A raw booking-creation payload: each schema field either absent or a
raw JSON value (unknown extra keys are stripped by Zod and not modelled). -/
structure RawPayload where
  experienceId : Option RawVal
  firstName : Option RawVal
  lastName : Option RawVal
  email : Option RawVal
  phone : Option RawVal
  checkinDate : Option RawVal
  checkoutDate : Option RawVal
  participants : Option RawVal
  specialRequests : Option RawVal
  totalAmount : Option RawVal
deriving DecidableEq, Repr

/-- Does a raw field satisfy `z.string()` (required string)? -/
def reqStrOk : Option RawVal → Bool
  | some (RawVal.vstr _) => true
  | _ => false

/-- Does a raw field satisfy `z.number()` (required number)? -/
def reqNumOk : Option RawVal → Bool
  | some (RawVal.vnum _) => true
  | _ => false

/-- Does a raw field satisfy `z.string().nullable().optional()`? -/
def optStrOk : Option RawVal → Bool
  | none => true
  | some RawVal.vnull => true
  | some (RawVal.vstr _) => true
  | _ => false

/-- The names of the payload fields that fail their Zod check, in schema
field order: Zod aggregates one issue (with the field name as path) per
failing field, and checks every field rather than stopping at the first. -/
def invalidFields (p : RawPayload) : List String :=
  (if reqStrOk p.experienceId then [] else ["experienceId"]) ++
  (if reqStrOk p.firstName then [] else ["firstName"]) ++
  (if reqStrOk p.lastName then [] else ["lastName"]) ++
  (if reqStrOk p.email then [] else ["email"]) ++
  (if reqStrOk p.phone then [] else ["phone"]) ++
  (if reqStrOk p.checkinDate then [] else ["checkinDate"]) ++
  (if reqStrOk p.checkoutDate then [] else ["checkoutDate"]) ++
  (if reqNumOk p.participants then [] else ["participants"]) ++
  (if optStrOk p.specialRequests then [] else ["specialRequests"]) ++
  (if reqStrOk p.totalAmount then [] else ["totalAmount"])

/-- Extract the string value of a raw field (meaningful only on fields
that passed `reqStrOk`). -/
def getStr : Option RawVal → String
  | some (RawVal.vstr s) => s
  | _ => ""

/-- Extract the number value of a raw field (meaningful only on fields
that passed `reqNumOk`). -/
def getNum : Option RawVal → Int
  | some (RawVal.vnum n) => n
  | _ => 0

/-- Extract an optional nullable string field: `null` and absent both come
out absent, a string comes out present. -/
def getOptStr : Option RawVal → Option String
  | some (RawVal.vstr s) => some s
  | _ => none

/-- Embedding of `insertBookingSchema.parse(body)`: the typed record on success, the
aggregated list of failing field names on failure. -/
def parseInsertBooking (p : RawPayload) :
    Except (List String) InsertBooking :=
  if invalidFields p = [] then
    Except.ok
      { experienceId := getStr p.experienceId
        firstName := getStr p.firstName
        lastName := getStr p.lastName
        email := getStr p.email
        phone := getStr p.phone
        checkinDate := getStr p.checkinDate
        checkoutDate := getStr p.checkoutDate
        participants := getNum p.participants
        specialRequests := getOptStr p.specialRequests
        totalAmount := getStr p.totalAmount }
  else Except.error (invalidFields p)

/-! ## API route handlers (server routes module) -/

/-- Response of POST /api/create-payment-intent. -/
structure PaymentIntentResp where
  status : Nat
  message : Option String
  clientSecret : Option String
  paymentIntentId : Option String
deriving DecidableEq, Repr

/-- POST /api/create-payment-intent. `amount` and `bookingId` are the
request-body fields (absent when not sent); `now1` and `now2` are the two
`Date.now()` draws (intent id, then client secret). Rejects with 400 when
`!amount || amount <= 0` (absent, zero, or negative); otherwise fabricates
`pi_mock_<now1>`, and when `bookingId` is truthy routes it through
`updateBookingPaymentStatus(bookingId, "processing", mockId)`. -/
def createPaymentIntent (st : MemStorage) (amount : Option Int)
    (bookingId : Option String) (now1 now2 : Nat) :
    PaymentIntentResp × MemStorage :=
  match amount with
  | none =>
    ({ status := 400, message := some "Valid amount is required",
       clientSecret := none, paymentIntentId := none }, st)
  | some a =>
    if a ≤ 0 then
      ({ status := 400, message := some "Valid amount is required",
         clientSecret := none, paymentIntentId := none }, st)
    else
      let mockPaymentIntentId := "pi_mock_" ++ jsNatStr now1
      let st' :=
        match bookingId with
        | some b =>
          if b = "" then st
          else (updateBookingPaymentStatus st b "processing"
                  (some mockPaymentIntentId)).2
        | none => st
      ({ status := 200, message := none,
         clientSecret := some ("pi_mock_" ++ jsNatStr now2 ++ "_secret_mock"),
         paymentIntentId := some mockPaymentIntentId }, st')

/-- Response of POST /api/confirm-payment. -/
structure ConfirmPaymentResp where
  status : Nat
  message : Option String
  success : Option Bool
  booking : Option Booking
  paymentStatus : Option String
deriving DecidableEq, Repr

/-- POST /api/confirm-payment. Rejects with 400 when either body field is
falsy (absent or empty string); otherwise marks the booking `completed`
via `updateBookingPaymentStatus` and reports success unconditionally,
echoing whatever (possibly absent) booking the update returned. -/
def confirmPayment (st : MemStorage) (paymentIntentId bookingId : Option String) :
    ConfirmPaymentResp × MemStorage :=
  let falsy : Option String → Bool := fun x =>
    match x with
    | none => true
    | some s => s = ""
  if falsy paymentIntentId || falsy bookingId then
    ({ status := 400,
       message := some "Payment intent ID and booking ID are required",
       success := none, booking := none, paymentStatus := none }, st)
  else
    let pid := match paymentIntentId with | some s => s | none => ""
    let bid := match bookingId with | some s => s | none => ""
    let r := updateBookingPaymentStatus st bid "completed" (some pid)
    ({ status := 200, message := none, success := some true,
       booking := r.1, paymentStatus := some "succeeded" }, r.2)

/-! ## The API operations as a step machine (for the temporal claim) -/

/-- One request against the API surface, with every nondeterministic input
of the handler (UUID, year, random draw, clock reads) made explicit. -/
inductive ApiOp
  | listExperiences
  | getExperienceOp (id : String)
  | createBookingOp (body : RawPayload) (id : String) (year rand now : Nat)
  | getBookingByRefOp (ref : String)
  | createPaymentIntentOp (amount : Option Int) (bookingId : Option String)
      (now1 now2 : Nat)
  | confirmPaymentOp (paymentIntentId bookingId : Option String)

/-- The storage after one API request: reads leave it unchanged, POST
/api/bookings runs validation then `createBooking`, and the two payment
endpoints run their handlers. -/
def apiStep (st : MemStorage) : ApiOp → MemStorage
  | ApiOp.listExperiences => st
  | ApiOp.getExperienceOp _ => st
  | ApiOp.createBookingOp body id year rand now =>
    match parseInsertBooking body with
    | Except.ok ib => (createBooking st ib id year rand now).2
    | Except.error _ => st
  | ApiOp.getBookingByRefOp _ => st
  | ApiOp.createPaymentIntentOp amount bookingId now1 now2 =>
    (createPaymentIntent st amount bookingId now1 now2).2
  | ApiOp.confirmPaymentOp paymentIntentId bookingId =>
    (confirmPayment st paymentIntentId bookingId).2

/-- The storage reached from the initial state by a sequence of requests. -/
def runOps (ops : List ApiOp) : MemStorage :=
  ops.foldl apiStep initialStorage

/-! ## Specification-side definitions and concrete fixtures -/

/-- Stated from the spec's words, for comparison with the code's output:
a string of the shape `SM-<4 digits>-<6 digits>`. -/
def refFormatOk (s : String) : Bool :=
  let cs := s.data
  (cs.length = 14 : Bool) &&
  (cs.take 3 = ['S', 'M', '-'] : Bool) &&
  ((cs.drop 3).take 4).all Char.isDigit &&
  ((cs.drop 7).take 1 = ['-'] : Bool) &&
  ((cs.drop 8).all Char.isDigit)

/-- A valid booking-creation record (the §8 scenario payload of the spec),
used as a concrete test input. -/
def sampleInsert : InsertBooking :=
  { experienceId := "meditation-retreats", firstName := "A", lastName := "B",
    email := "a@b.com", phone := "123", checkinDate := "2025-01-01",
    checkoutDate := "2025-01-03", participants := 2,
    specialRequests := none, totalAmount := "240.00" }

/-- A second valid booking-creation record, differing from `sampleInsert`. -/
def sampleInsertC : InsertBooking :=
  { sampleInsert with firstName := "C", email := "c@d.com" }

/-- A booking that already carries a payment-intent id, as left by an
earlier create-payment-intent call. -/
def bookingWithIntent : Booking :=
  { id := "b1", referenceNumber := "SM-2025-000042",
    experienceId := "meditation-retreats", firstName := "A", lastName := "B",
    email := "a@b.com", phone := "123", checkinDate := "2025-01-01",
    checkoutDate := "2025-01-03", participants := 2, specialRequests := none,
    totalAmount := "240.00", paymentStatus := "processing",
    stripePaymentIntentId := some "pi_prev", createdAt := 0 }

/-- A storage state holding just `bookingWithIntent` under id `b1`. -/
def storeWithIntent : MemStorage :=
  { experiences := [], bookings := [("b1", bookingWithIntent)] }

/-- Two bookings created in the same year with the same random draw:
the storage after both `createBooking` calls. -/
def collidingStore : MemStorage :=
  (createBooking (createBooking initialStorage sampleInsert "u1" 2025 7 0).2
    sampleInsertC "u2" 2025 7 1).2

/-- The record returned by the second of the two colliding creations. -/
def secondColliding : Booking :=
  (createBooking (createBooking initialStorage sampleInsert "u1" 2025 7 0).2
    sampleInsertC "u2" 2025 7 1).1

/-- The raw form of the §8 scenario payload, but with a malformed email
string (`not-an-email`): every field well-typed for the schema. -/
def payloadBadEmail : RawPayload :=
  { experienceId := some (RawVal.vstr "meditation-retreats"),
    firstName := some (RawVal.vstr "A"), lastName := some (RawVal.vstr "B"),
    email := some (RawVal.vstr "not-an-email"),
    phone := some (RawVal.vstr "123"),
    checkinDate := some (RawVal.vstr "2025-01-01"),
    checkoutDate := some (RawVal.vstr "2025-01-03"),
    participants := some (RawVal.vnum 2), specialRequests := none,
    totalAmount := some (RawVal.vstr "240.00") }

/-- A raw payload missing `email` and carrying a non-string `firstName`:
two fields invalid at once. -/
def payloadMissingEmail : RawPayload :=
  { payloadBadEmail with
    email := none,
    firstName := some (RawVal.vnum 5) }

/-- The fully valid raw form of the §8 scenario payload. -/
def payloadValid : RawPayload :=
  { payloadBadEmail with email := some (RawVal.vstr "a@b.com") }

/-! ## Helper lemmas: decimal digits and the reference-number format -/

theorem digitChar_isDigit {n : Nat} (h : n < 10) :
    (Nat.digitChar n).isDigit = true := by
  interval_cases n <;> decide

theorem decDigitsAux_fuel_irrel :
    ∀ f₁ f₂ n, n < f₁ → n < f₂ → decDigitsAux f₁ n = decDigitsAux f₂ n := by
  intro f₁
  induction f₁ with
  | zero => intro f₂ n h _; omega
  | succ f ih =>
    intro f₂ n h1 h2
    cases f₂ with
    | zero => omega
    | succ g =>
      simp only [decDigitsAux]
      by_cases h10 : n < 10
      · simp [h10]
      · simp only [h10, if_false]
        rw [ih g (n / 10) (by omega) (by omega)]

theorem decDigits_lt10 {n : Nat} (h : n < 10) :
    decDigits n = [Nat.digitChar n] := by
  simp [decDigits, decDigitsAux, h]

theorem decDigits_ge10 {n : Nat} (h : 10 ≤ n) :
    decDigits n = decDigits (n / 10) ++ [Nat.digitChar (n % 10)] := by
  unfold decDigits
  have h1 : decDigitsAux (n + 1) n
      = decDigitsAux n (n / 10) ++ [Nat.digitChar (n % 10)] := by
    simp only [decDigitsAux]
    simp [Nat.not_lt.mpr h]
  rw [h1, decDigitsAux_fuel_irrel n (n / 10 + 1) (n / 10) (by omega) (by omega)]

theorem decDigits_all_digit (n : Nat) :
    (decDigits n).all Char.isDigit = true := by
  induction n using Nat.strong_induction_on with
  | _ n ih =>
    by_cases h : n < 10
    · rw [decDigits_lt10 h]
      simp [digitChar_isDigit h]
    · rw [decDigits_ge10 (by omega)]
      have hd := ih (n / 10) (by omega)
      simp [List.all_append, hd, digitChar_isDigit (Nat.mod_lt n (by omega))]

theorem decDigits_length_le {k : Nat} (hk : 1 ≤ k) :
    ∀ n, n < 10 ^ k → (decDigits n).length ≤ k := by
  induction k, hk using Nat.le_induction with
  | base =>
    intro n h
    rw [decDigits_lt10 (by simpa using h)]
    simp
  | succ k hk ih =>
    intro n h
    by_cases h10 : n < 10
    · rw [decDigits_lt10 h10]; simp only [List.length_singleton]; omega
    · rw [decDigits_ge10 (by omega)]
      rw [pow_succ] at h
      have hdiv : n / 10 < 10 ^ k :=
        (Nat.div_lt_iff_lt_mul (by norm_num)).mpr h
      have := ih (n / 10) hdiv
      simp [List.length_append]
      omega

theorem decDigits_length_four {y : Nat} (h1 : 1000 ≤ y) (h2 : y < 10000) :
    (decDigits y).length = 4 := by
  rw [decDigits_ge10 (show (10:Nat) ≤ y by omega),
      decDigits_ge10 (show (10:Nat) ≤ y / 10 by omega),
      decDigits_ge10 (show (10:Nat) ≤ y / 10 / 10 by omega),
      decDigits_lt10 (show y / 10 / 10 / 10 < 10 by omega)]
  simp

theorem padStart_jsNatStr_length {n : Nat} (h : n < 1000000) :
    ((padStart (jsNatStr n) 6 '0').data).length = 6 := by
  have hle : (decDigits n).length ≤ 6 :=
    decDigits_length_le (by norm_num) n (by norm_num; omega)
  simp only [padStart, jsNatStr, List.length_append, List.length_replicate]
  omega

theorem padStart_jsNatStr_digits (n : Nat) :
    ((padStart (jsNatStr n) 6 '0').data).all Char.isDigit = true := by
  simp only [padStart, jsNatStr, List.all_append, Bool.and_eq_true]
  refine ⟨?_, decDigits_all_digit n⟩
  simp only [List.all_eq_true]
  intro x hx
  rw [List.eq_of_mem_replicate hx]
  decide

theorem refFormatOk_of_shape {Y P : List Char}
    (hY : Y.length = 4) (hYd : Y.all Char.isDigit = true)
    (hP : P.length = 6) (hPd : P.all Char.isDigit = true) :
    refFormatOk ⟨['S', 'M', '-'] ++ (Y ++ '-' :: P)⟩ = true := by
  have hd3 : List.drop 3 (['S', 'M', '-'] ++ (Y ++ '-' :: P)) = Y ++ '-' :: P :=
    List.drop_left' rfl
  have hd7 : List.drop 7 (['S', 'M', '-'] ++ (Y ++ '-' :: P)) = '-' :: P := by
    have h74 : (7 : Nat) = 3 + 4 := rfl
    rw [h74, ← List.drop_drop, hd3, List.drop_left' hY]
  have hd8 : List.drop 8 (['S', 'M', '-'] ++ (Y ++ '-' :: P)) = P := by
    have h81 : (8 : Nat) = 7 + 1 := rfl
    rw [h81, ← List.drop_drop, hd7, List.drop_one]
    rfl
  simp only [refFormatOk, Bool.and_eq_true, decide_eq_true_eq]
  refine ⟨⟨⟨⟨?_, ?_⟩, ?_⟩, ?_⟩, ?_⟩
  · simp [List.length_append, hY, hP]
  · exact List.take_left' rfl
  · rw [hd3, List.take_left' hY]; exact hYd
  · rw [hd7]; rfl
  · rw [hd8]; exact hPd

theorem refFormatOk_mkReferenceNumber {year rand : Nat}
    (hy1 : 1000 ≤ year) (hy2 : year < 10000) (hr : rand < 999999) :
    refFormatOk (mkReferenceNumber year rand) = true := by
  have hshape : mkReferenceNumber year rand
      = ⟨['S', 'M', '-'] ++
          (decDigits year ++ '-' :: (padStart (jsNatStr rand) 6 '0').data)⟩ := by
    apply String.ext
    show ("SM-" ++ jsNatStr year ++ "-" ++ padStart (jsNatStr rand) 6 '0').data = _
    simp [String.data_append, jsNatStr]
  rw [hshape]
  exact refFormatOk_of_shape (decDigits_length_four hy1 hy2)
    (decDigits_all_digit year) (padStart_jsNatStr_length (by omega))
    (padStart_jsNatStr_digits rand)

/-! ## Helper lemmas: the association-list model of JS `Map` -/

theorem find?_map_replace {α : Type} (k : String) (v : α) :
    ∀ m : List (String × α),
      (m.map (fun p => if p.1 = k then (k, v) else p)).find? (fun p => p.1 = k)
        = (m.find? (fun p => p.1 = k)).map (fun _ => (k, v)) := by
  intro m
  induction m with
  | nil => simp
  | cons p m ih =>
    by_cases h : p.1 = k
    · simp [List.find?_cons, h]
    · simp [List.find?_cons, h, ih]

theorem find?_map_replace_ne {α : Type} (k k' : String) (v : α) (h : k' ≠ k) :
    ∀ m : List (String × α),
      (m.map (fun p => if p.1 = k then (k, v) else p)).find? (fun p => p.1 = k')
        = m.find? (fun p => p.1 = k') := by
  intro m
  induction m with
  | nil => simp
  | cons p m ih =>
    by_cases hp : p.1 = k
    · have h1 : ¬ (k = k') := fun hc => h hc.symm
      have h2 : ¬ (p.1 = k') := by rw [hp]; exact h1
      simp [List.find?_cons, hp, h1, h2, ih]
    · simp [List.find?_cons, hp, ih]

theorem mapGet_mapSet_self {α : Type} (m : List (String × α)) (k : String) (v : α) :
    mapGet (mapSet m k v) k = some v := by
  unfold mapGet mapSet
  by_cases hany : m.any (fun p => p.1 = k)
  · rw [if_pos hany, find?_map_replace]
    have hsome : (m.find? (fun p => p.1 = k)).isSome = true := by
      rw [List.find?_isSome]
      simpa [List.any_eq_true] using hany
    obtain ⟨q, hq⟩ := Option.isSome_iff_exists.mp hsome
    rw [hq]
    rfl
  · rw [if_neg hany, List.find?_append]
    have hnone : m.find? (fun p => p.1 = k) = none := by
      rw [List.find?_eq_none]
      intro x hx hc
      exact hany (List.any_eq_true.mpr ⟨x, hx, hc⟩)
    rw [hnone]
    simp [List.find?_cons]

theorem mapGet_mapSet_ne {α : Type} (m : List (String × α)) (k k' : String) (v : α)
    (h : k' ≠ k) : mapGet (mapSet m k v) k' = mapGet m k' := by
  unfold mapGet mapSet
  by_cases hany : m.any (fun p => p.1 = k)
  · rw [if_pos hany, find?_map_replace_ne k k' v h]
  · rw [if_neg hany, List.find?_append]
    have hlast : List.find? (fun p => p.1 = k') [(k, v)] = none := by
      have hkk : ¬ (k = k') := fun hc => h hc.symm
      simp [List.find?_cons, hkk]
    rw [hlast]
    simp

theorem mem_mapSet {α : Type} {m : List (String × α)} {k : String} {v : α}
    {p : String × α} (h : p ∈ mapSet m k v) : p ∈ m ∨ p = (k, v) := by
  unfold mapSet at h
  by_cases hany : m.any (fun q => q.1 = k)
  · rw [if_pos hany] at h
    obtain ⟨q, hq, hfq⟩ := List.mem_map.mp h
    by_cases hqk : q.1 = k
    · right; simp [hqk] at hfq; exact hfq.symm
    · left; simp [hqk] at hfq; exact hfq ▸ hq
  · rw [if_neg hany] at h
    rcases List.mem_append.mp h with h1 | h1
    · exact Or.inl h1
    · right; simpa using h1

theorem createBooking_bookings (st : MemStorage) (ib : InsertBooking)
    (id : String) (year rand now : Nat) :
    (createBooking st ib id year rand now).2.bookings
      = mapSet st.bookings id (createBooking st ib id year rand now).1 := rfl

/-- C1: for every valid payload, `createBooking` returns — and stores under
its fresh identifier — a booking whose reference matches
`SM-<4-digit year>-<6-digit zero-padded number>` (the random component lies
in [0, 999999) by construction of `Math.floor(Math.random() * 999999)`),
whose payment status is `pending`, whose payment-intent id is absent, and
whose `specialRequests` is absent when not supplied. The year parameter is
`new Date().getFullYear()`, four digits for any current date. -/
theorem createBooking_fresh_booking_spec (st : MemStorage) (ib : InsertBooking)
    (id : String) (year rand now : Nat)
    (hy1 : 1000 ≤ year) (hy2 : year < 10000) (hr : rand < 999999) :
    refFormatOk (createBooking st ib id year rand now).1.referenceNumber = true ∧
    (createBooking st ib id year rand now).1.referenceNumber
      = mkReferenceNumber year rand ∧
    (createBooking st ib id year rand now).1.paymentStatus = "pending" ∧
    (createBooking st ib id year rand now).1.stripePaymentIntentId = none ∧
    (ib.specialRequests = none →
      (createBooking st ib id year rand now).1.specialRequests = none) ∧
    mapGet (createBooking st ib id year rand now).2.bookings id
      = some (createBooking st ib id year rand now).1 := by
  refine ⟨refFormatOk_mkReferenceNumber hy1 hy2 hr, rfl, rfl, rfl, ?_, ?_⟩
  · intro h
    simp [createBooking, jsStrOr, h]
  · rw [createBooking_bookings]
    exact mapGet_mapSet_self st.bookings id _

/-- Witness for C1 at a concrete input. -/
theorem createBooking_fresh_booking_spec_witness :
    1000 ≤ 2025 ∧ 2025 < 10000 ∧ 0 < 999999 ∧
    (refFormatOk (createBooking initialStorage sampleInsert "u1" 2025 0 0).1.referenceNumber
        = true ∧
      (createBooking initialStorage sampleInsert "u1" 2025 0 0).1.referenceNumber
        = mkReferenceNumber 2025 0 ∧
      (createBooking initialStorage sampleInsert "u1" 2025 0 0).1.paymentStatus
        = "pending" ∧
      (createBooking initialStorage sampleInsert "u1" 2025 0 0).1.stripePaymentIntentId
        = none ∧
      (sampleInsert.specialRequests = none →
        (createBooking initialStorage sampleInsert "u1" 2025 0 0).1.specialRequests
          = none) ∧
      mapGet (createBooking initialStorage sampleInsert "u1" 2025 0 0).2.bookings "u1"
        = some (createBooking initialStorage sampleInsert "u1" 2025 0 0).1) :=
  ⟨by decide, by decide, by decide,
    createBooking_fresh_booking_spec initialStorage sampleInsert "u1" 2025 0 0
      (by decide) (by decide) (by decide)⟩

/-- C3: the reference number depends only on the year and the random draw
(no uniqueness check against existing bookings exists): two `createBooking`
calls in the same year with coinciding draws leave the store holding two
bookings with equal reference numbers. -/
theorem createBooking_reference_collision (st : MemStorage)
    (ib1 ib2 : InsertBooking) (id1 id2 : String) (year rand now1 now2 : Nat)
    (hne : id1 ≠ id2) :
    (createBooking st ib1 id1 year rand now1).1.referenceNumber
      = (createBooking (createBooking st ib1 id1 year rand now1).2
          ib2 id2 year rand now2).1.referenceNumber ∧
    mapGet (createBooking (createBooking st ib1 id1 year rand now1).2
        ib2 id2 year rand now2).2.bookings id1
      = some (createBooking st ib1 id1 year rand now1).1 ∧
    mapGet (createBooking (createBooking st ib1 id1 year rand now1).2
        ib2 id2 year rand now2).2.bookings id2
      = some (createBooking (createBooking st ib1 id1 year rand now1).2
          ib2 id2 year rand now2).1 := by
  refine ⟨rfl, ?_, ?_⟩
  · rw [createBooking_bookings, createBooking_bookings,
      mapGet_mapSet_ne _ id2 id1 _ hne]
    exact mapGet_mapSet_self st.bookings id1 _
  · rw [createBooking_bookings]
    exact mapGet_mapSet_self _ id2 _

/-- Witness for C3 at a concrete input. -/
theorem createBooking_reference_collision_witness :
    ("u1" : String) ≠ "u2" ∧
    ((createBooking initialStorage sampleInsert "u1" 2025 7 0).1.referenceNumber
        = (createBooking (createBooking initialStorage sampleInsert "u1" 2025 7 0).2
            sampleInsertC "u2" 2025 7 1).1.referenceNumber ∧
      mapGet (createBooking (createBooking initialStorage sampleInsert "u1" 2025 7 0).2
          sampleInsertC "u2" 2025 7 1).2.bookings "u1"
        = some (createBooking initialStorage sampleInsert "u1" 2025 7 0).1 ∧
      mapGet (createBooking (createBooking initialStorage sampleInsert "u1" 2025 7 0).2
          sampleInsertC "u2" 2025 7 1).2.bookings "u2"
        = some (createBooking (createBooking initialStorage sampleInsert "u1" 2025 7 0).2
            sampleInsertC "u2" 2025 7 1).1) :=
  ⟨by decide,
    createBooking_reference_collision initialStorage sampleInsert sampleInsertC
      "u1" "u2" 2025 7 0 1 (by decide)⟩

/-- C10: supplying the empty string as `paymentIntentId` falls through the
`||` fallback: the prior payment-intent id is preserved and the call is
indistinguishable from supplying no id at all. -/
theorem updateBookingPaymentStatus_empty_intent (st : MemStorage)
    (id status : String) (bk : Booking)
    (h : mapGet st.bookings id = some bk) :
    (updateBookingPaymentStatus st id status (some "")).1
      = some { bk with paymentStatus := status } ∧
    updateBookingPaymentStatus st id status (some "")
      = updateBookingPaymentStatus st id status none := by
  constructor
  · simp [updateBookingPaymentStatus, h, jsStrOr]
  · simp [updateBookingPaymentStatus, h, jsStrOr]

/-- Witness for C10 at a concrete input. -/
theorem updateBookingPaymentStatus_empty_intent_witness :
    mapGet storeWithIntent.bookings "b1" = some bookingWithIntent ∧
    ((updateBookingPaymentStatus storeWithIntent "b1" "completed" (some "")).1
        = some { bookingWithIntent with paymentStatus := "completed" } ∧
      updateBookingPaymentStatus storeWithIntent "b1" "completed" (some "")
        = updateBookingPaymentStatus storeWithIntent "b1" "completed" none) :=
  ⟨by decide,
    updateBookingPaymentStatus_empty_intent storeWithIntent "b1" "completed"
      bookingWithIntent (by decide)⟩

/-- C2 (amended): `updateBookingPaymentStatus` returns absent and leaves the
store unchanged on an unknown id; on an existing id it returns a record with
the supplied status (no state-machine guard), whose payment-intent id equals
the supplied argument when a NON-EMPTY one is supplied and otherwise (absent
or empty-string argument, both falsy under `||`) equals the prior value, and
stores that record under the same id. -/
theorem updateBookingPaymentStatus_spec (st : MemStorage) (id status : String)
    (pid : Option String) :
    (mapGet st.bookings id = none →
      updateBookingPaymentStatus st id status pid = (none, st)) ∧
    (∀ bk, mapGet st.bookings id = some bk →
      ∃ ub, updateBookingPaymentStatus st id status pid
          = (some ub, { st with bookings := mapSet st.bookings id ub }) ∧
        ub.paymentStatus = status ∧
        (∀ s, pid = some s → s ≠ "" → ub.stripePaymentIntentId = some s) ∧
        ((pid = none ∨ pid = some "") →
          ub.stripePaymentIntentId = bk.stripePaymentIntentId) ∧
        mapGet (updateBookingPaymentStatus st id status pid).2.bookings id
          = some ub) := by
  constructor
  · intro h
    simp [updateBookingPaymentStatus, h]
  · intro bk h
    refine ⟨{ bk with
                paymentStatus := status,
                stripePaymentIntentId := jsStrOr pid bk.stripePaymentIntentId },
      ?_, rfl, ?_, ?_, ?_⟩
    · simp [updateBookingPaymentStatus, h]
    · intro s hs hne
      simp [hs, jsStrOr, hne]
    · rintro (rfl | rfl) <;> simp [jsStrOr]
    · simp only [updateBookingPaymentStatus, h]
      exact mapGet_mapSet_self st.bookings id _

/-- Witness for C2's amended theorem at a concrete input. -/
theorem updateBookingPaymentStatus_spec_witness :
    mapGet storeWithIntent.bookings "b1" = some bookingWithIntent ∧
    (∃ ub, updateBookingPaymentStatus storeWithIntent "b1" "failed" (some "pi_9")
        = (some ub,
           { storeWithIntent with
             bookings := mapSet storeWithIntent.bookings "b1" ub }) ∧
      ub.paymentStatus = "failed" ∧
      (∀ s, (some "pi_9" : Option String) = some s → s ≠ "" →
        ub.stripePaymentIntentId = some s) ∧
      (((some "pi_9" : Option String) = none ∨
          (some "pi_9" : Option String) = some "") →
        ub.stripePaymentIntentId = bookingWithIntent.stripePaymentIntentId) ∧
      mapGet (updateBookingPaymentStatus storeWithIntent "b1" "failed"
          (some "pi_9")).2.bookings "b1" = some ub) :=
  ⟨by decide,
    (updateBookingPaymentStatus_spec storeWithIntent "b1" "failed"
        (some "pi_9")).2 bookingWithIntent (by decide)⟩

/-- C2 counterexample: the claim as stated says the returned record's
payment-intent id equals the supplied argument whenever one is supplied;
supplying the (falsy) empty string instead preserves the prior id. -/
theorem updateBookingPaymentStatus_empty_supplied_counterexample :
    (updateBookingPaymentStatus storeWithIntent "b1" "completed" (some "")).1.map
        Booking.stripePaymentIntentId = some (some "pi_prev") ∧
    (some (some "pi_prev") : Option (Option String)) ≠ some (some "") := by
  constructor
  · decide
  · decide

/-- C9: confirm-payment with a truthy payment-intent id and a truthy
`bookingId` naming no stored booking still answers 200 / success /
`succeeded`, with an absent booking, and the store is untouched — absence
is never mapped to a 404 here. (Identifiers issued by `randomUUID()` are
never the empty string, so the truthiness guard only excludes absence.) -/
theorem confirmPayment_missing_booking (st : MemStorage) (pid bid : String)
    (h1 : pid ≠ "") (h2 : bid ≠ "") (h3 : mapGet st.bookings bid = none) :
    confirmPayment st (some pid) (some bid)
      = ({ status := 200, message := none, success := some true,
           booking := none, paymentStatus := some "succeeded" }, st) := by
  simp [confirmPayment, h1, h2, updateBookingPaymentStatus, h3]

/-- Witness for C9 at a concrete input. -/
theorem confirmPayment_missing_booking_witness :
    ("pi_x" : String) ≠ "" ∧ ("nope" : String) ≠ "" ∧
    mapGet initialStorage.bookings "nope" = none ∧
    confirmPayment initialStorage (some "pi_x") (some "nope")
      = ({ status := 200, message := none, success := some true,
           booking := none, paymentStatus := some "succeeded" },
         initialStorage) :=
  ⟨by decide, by decide, by decide,
    confirmPayment_missing_booking initialStorage "pi_x" "nope"
      (by decide) (by decide) (by decide)⟩

theorem pi_mock_ne_empty (s : String) : ("pi_mock_" ++ s) ≠ "" := by
  intro h
  have hd : ("pi_mock_" ++ s).data = "".data := congrArg String.data h
  rw [String.data_append] at hd
  have h0 : ("pi_mock_" : String).data = [] := (List.append_eq_nil.mp hd).1
  exact absurd h0 (by decide)

/-- C6: create-payment-intent answers 400 (message `Valid amount is
required`, store untouched) exactly when the amount is absent or ≤ 0;
otherwise it answers 200 with a client secret and a payment-intent id
stamped with the `Date.now()` reads, and when `bookingId` names an existing
booking (identifiers from `randomUUID()` are never empty) that booking's
status becomes `processing` with the returned intent id. -/
theorem createPaymentIntent_spec (st : MemStorage) (amount : Option Int)
    (bookingId : Option String) (now1 now2 : Nat) :
    ((createPaymentIntent st amount bookingId now1 now2).1.status = 400 ↔
      (amount = none ∨ ∃ a, amount = some a ∧ a ≤ 0)) ∧
    ((amount = none ∨ ∃ a, amount = some a ∧ a ≤ 0) →
      (createPaymentIntent st amount bookingId now1 now2).1.message
          = some "Valid amount is required" ∧
      (createPaymentIntent st amount bookingId now1 now2).2 = st) ∧
    (∀ a, amount = some a → 0 < a →
      (createPaymentIntent st amount bookingId now1 now2).1.status = 200 ∧
      (createPaymentIntent st amount bookingId now1 now2).1.paymentIntentId
          = some ("pi_mock_" ++ jsNatStr now1) ∧
      (createPaymentIntent st amount bookingId now1 now2).1.clientSecret
          = some ("pi_mock_" ++ jsNatStr now2 ++ "_secret_mock") ∧
      (∀ bid bk, bookingId = some bid → bid ≠ "" →
        mapGet st.bookings bid = some bk →
        mapGet (createPaymentIntent st amount bookingId now1 now2).2.bookings bid
          = some { bk with
                   paymentStatus := "processing",
                   stripePaymentIntentId :=
                     some ("pi_mock_" ++ jsNatStr now1) })) := by
  rcases amount with _ | a
  · refine ⟨by simp [createPaymentIntent], ?_, ?_⟩
    · intro _
      exact ⟨rfl, rfl⟩
    · intro a ha
      exact absurd ha (by simp)
  · by_cases ha : a ≤ 0
    · refine ⟨?_, ?_, ?_⟩
      · simp [createPaymentIntent, ha]
      · intro _
        constructor <;> simp [createPaymentIntent, ha]
      · rintro b hb hpos
        rw [Option.some_inj] at hb
        subst hb
        omega
    · have hpos : ¬ (a ≤ 0) := ha
      refine ⟨?_, ?_, ?_⟩
      · constructor
        · intro h400
          exfalso
          rcases bookingId with _ | b
          · simp [createPaymentIntent, ha] at h400
          · by_cases hb : b = "" <;> simp [createPaymentIntent, ha, hb] at h400
        · rintro (h | ⟨b, hb, hle⟩)
          · exact absurd h (by simp)
          · rw [Option.some_inj] at hb
            subst hb
            omega
      · rintro (h | ⟨b, hb, hle⟩)
        · exact absurd h (by simp)
        · rw [Option.some_inj] at hb
          subst hb
          omega
      · intro b hb hpos'
        injection hb with hba
        subst hba
        refine ⟨?_, ?_, ?_, ?_⟩
        · rcases bookingId with _ | c
          · simp [createPaymentIntent, ha]
          · by_cases hc : c = "" <;> simp [createPaymentIntent, ha, hc]
        · rcases bookingId with _ | c
          · simp [createPaymentIntent, ha]
          · by_cases hc : c = "" <;> simp [createPaymentIntent, ha, hc]
        · rcases bookingId with _ | c
          · simp [createPaymentIntent, ha]
          · by_cases hc : c = "" <;> simp [createPaymentIntent, ha, hc]
        · rintro bid bk hbid hbne hget
          subst hbid
          have hstep : (createPaymentIntent st (some a) (some bid) now1 now2).2
              = (updateBookingPaymentStatus st bid "processing"
                  (some ("pi_mock_" ++ jsNatStr now1))).2 := by
            simp [createPaymentIntent, ha, hbne]
          rw [hstep]
          simp only [updateBookingPaymentStatus, hget]
          have hjs : jsStrOr (some ("pi_mock_" ++ jsNatStr now1))
              bk.stripePaymentIntentId = some ("pi_mock_" ++ jsNatStr now1) := by
            simp [jsStrOr, pi_mock_ne_empty (jsNatStr now1)]
          rw [hjs]
          exact mapGet_mapSet_self st.bookings bid _

/-- Witness for C6 at a concrete input. -/
theorem createPaymentIntent_spec_witness :
    ((0 : Int) < 100 ∧ ("b1" : String) ≠ "" ∧
      mapGet storeWithIntent.bookings "b1" = some bookingWithIntent) ∧
    (createPaymentIntent storeWithIntent (some 100) (some "b1") 5 6).1.status
        = 200 ∧
    mapGet (createPaymentIntent storeWithIntent (some 100) (some "b1")
        5 6).2.bookings "b1"
      = some { bookingWithIntent with
               paymentStatus := "processing",
               stripePaymentIntentId := some ("pi_mock_" ++ jsNatStr 5) } := by
  have h := (createPaymentIntent_spec storeWithIntent (some 100) (some "b1")
    5 6).2.2 100 rfl (by decide)
  exact ⟨⟨by decide, by decide, by decide⟩, h.1,
    h.2.2.2 "b1" bookingWithIntent rfl (by decide) (by decide)⟩

/-- C7: confirm-payment with non-empty intent and booking ids over a store
that holds the booking answers 200 / success true / `succeeded` and stores
the booking as `completed` with the supplied intent id; a missing field
yields 400 with the store untouched. -/
theorem confirmPayment_spec :
    (∀ (st : MemStorage) (pid bid : String) (bk : Booking),
        pid ≠ "" → bid ≠ "" → mapGet st.bookings bid = some bk →
        (confirmPayment st (some pid) (some bid)).1.status = 200 ∧
        (confirmPayment st (some pid) (some bid)).1.success = some true ∧
        (confirmPayment st (some pid) (some bid)).1.paymentStatus
            = some "succeeded" ∧
        mapGet (confirmPayment st (some pid) (some bid)).2.bookings bid
          = some { bk with
                   paymentStatus := "completed",
                   stripePaymentIntentId := some pid }) ∧
    (∀ (st : MemStorage) (pid bid : Option String),
        pid = none ∨ bid = none →
        confirmPayment st pid bid
          = ({ status := 400,
               message := some "Payment intent ID and booking ID are required",
               success := none, booking := none, paymentStatus := none },
             st)) := by
  constructor
  · intro st pid bid bk h1 h2 hget
    refine ⟨?_, ?_, ?_, ?_⟩
    · simp [confirmPayment, h1, h2]
    · simp [confirmPayment, h1, h2]
    · simp [confirmPayment, h1, h2]
    · have hstep : (confirmPayment st (some pid) (some bid)).2
          = (updateBookingPaymentStatus st bid "completed" (some pid)).2 := by
        simp [confirmPayment, h1, h2]
      rw [hstep]
      simp only [updateBookingPaymentStatus, hget]
      have hjs : jsStrOr (some pid) bk.stripePaymentIntentId = some pid := by
        simp [jsStrOr, h1]
      rw [hjs]
      exact mapGet_mapSet_self st.bookings bid _
  · rintro st pid bid (rfl | rfl)
    · simp [confirmPayment]
    · simp [confirmPayment]

/-- Witness for C7 at a concrete input. -/
theorem confirmPayment_spec_witness :
    (("pi_new" : String) ≠ "" ∧ ("b1" : String) ≠ "" ∧
      mapGet storeWithIntent.bookings "b1" = some bookingWithIntent) ∧
    mapGet (confirmPayment storeWithIntent (some "pi_new")
        (some "b1")).2.bookings "b1"
      = some { bookingWithIntent with
               paymentStatus := "completed",
               stripePaymentIntentId := some "pi_new" } ∧
    confirmPayment initialStorage none (some "x")
      = ({ status := 400,
           message := some "Payment intent ID and booking ID are required",
           success := none, booking := none, paymentStatus := none },
         initialStorage) := by
  have h := confirmPayment_spec.1 storeWithIntent "pi_new" "b1" bookingWithIntent
    (by decide) (by decide) (by decide)
  have h2 := confirmPayment_spec.2 initialStorage none (some "x") (Or.inl rfl)
  exact ⟨⟨by decide, by decide, by decide⟩, h.2.2.2, h2⟩

theorem updateBookingPaymentStatus_mem (st : MemStorage) (id status : String)
    (pid : Option String) (p : String × Booking)
    (hp : p ∈ (updateBookingPaymentStatus st id status pid).2.bookings) :
    p ∈ st.bookings ∨ p.2.paymentStatus = status := by
  unfold updateBookingPaymentStatus at hp
  cases h : mapGet st.bookings id with
  | none => rw [h] at hp; exact Or.inl hp
  | some bk =>
    rw [h] at hp
    rcases mem_mapSet hp with h1 | h1
    · exact Or.inl h1
    · right; rw [h1]

theorem createPaymentIntent_mem (st : MemStorage) (amount : Option Int)
    (bookingId : Option String) (now1 now2 : Nat) (p : String × Booking)
    (hp : p ∈ (createPaymentIntent st amount bookingId now1 now2).2.bookings) :
    p ∈ st.bookings ∨ p.2.paymentStatus = "processing" := by
  rcases amount with _ | a
  · exact Or.inl hp
  · by_cases ha : a ≤ 0
    · have hst : (createPaymentIntent st (some a) bookingId now1 now2).2 = st := by
        simp [createPaymentIntent, ha]
      rw [hst] at hp
      exact Or.inl hp
    · rcases bookingId with _ | b
      · have hst : (createPaymentIntent st (some a) none now1 now2).2 = st := by
          simp [createPaymentIntent, ha]
        rw [hst] at hp
        exact Or.inl hp
      · by_cases hb : b = ""
        · have hst : (createPaymentIntent st (some a) (some b) now1 now2).2 = st := by
            simp [createPaymentIntent, ha, hb]
          rw [hst] at hp
          exact Or.inl hp
        · have hst : (createPaymentIntent st (some a) (some b) now1 now2).2
              = (updateBookingPaymentStatus st b "processing"
                  (some ("pi_mock_" ++ jsNatStr now1))).2 := by
            simp [createPaymentIntent, ha, hb]
          rw [hst] at hp
          exact updateBookingPaymentStatus_mem st b "processing" _ p hp

theorem confirmPayment_mem (st : MemStorage) (pid bid : Option String)
    (p : String × Booking)
    (hp : p ∈ (confirmPayment st pid bid).2.bookings) :
    p ∈ st.bookings ∨ p.2.paymentStatus = "completed" := by
  rcases pid with _ | ps
  · exact Or.inl hp
  · rcases bid with _ | bs
    · have hst : (confirmPayment st (some ps) none).2 = st := by
        simp [confirmPayment]
      rw [hst] at hp
      exact Or.inl hp
    · by_cases hps : ps = ""
      · have hst : (confirmPayment st (some ps) (some bs)).2 = st := by
          simp [confirmPayment, hps]
        rw [hst] at hp
        exact Or.inl hp
      · by_cases hbs : bs = ""
        · have hst : (confirmPayment st (some ps) (some bs)).2 = st := by
            simp [confirmPayment, hps, hbs]
          rw [hst] at hp
          exact Or.inl hp
        · have hst : (confirmPayment st (some ps) (some bs)).2
              = (updateBookingPaymentStatus st bs "completed" (some ps)).2 := by
            simp [confirmPayment, hps, hbs]
          rw [hst] at hp
          exact updateBookingPaymentStatus_mem st bs "completed" _ p hp

theorem apiStep_no_failed (st : MemStorage)
    (hinv : ∀ p ∈ st.bookings, p.2.paymentStatus ≠ "failed") (op : ApiOp) :
    ∀ p ∈ (apiStep st op).bookings, p.2.paymentStatus ≠ "failed" := by
  intro p
  cases op with
  | listExperiences => exact hinv p
  | getExperienceOp i => exact hinv p
  | getBookingByRefOp r => exact hinv p
  | createBookingOp body id year rand now =>
    simp only [apiStep]
    cases hpb : parseInsertBooking body with
    | error e => exact hinv p
    | ok ib =>
      intro hp
      rw [createBooking_bookings] at hp
      rcases mem_mapSet hp with h1 | h1
      · exact hinv p h1
      · rw [h1]; simp [createBooking]
  | createPaymentIntentOp amount bookingId now1 now2 =>
    intro hp
    rcases createPaymentIntent_mem st amount bookingId now1 now2 p hp with h1 | h1
    · exact hinv p h1
    · rw [h1]; decide
  | confirmPaymentOp pid bid =>
    intro hp
    rcases confirmPayment_mem st pid bid p hp with h1 | h1
    · exact hinv p h1
    · rw [h1]; decide

theorem runOps_no_failed_aux :
    ∀ (ops : List ApiOp) (st : MemStorage),
      (∀ p ∈ st.bookings, p.2.paymentStatus ≠ "failed") →
      ∀ p ∈ (ops.foldl apiStep st).bookings, p.2.paymentStatus ≠ "failed" := by
  intro ops
  induction ops with
  | nil => intro st h; exact h
  | cons op ops ih =>
    intro st h
    exact ih (apiStep st op) (apiStep_no_failed st h op)

/-- C5: along any sequence of the six API operations from the initial
store, no stored booking ever carries payment status `failed`: creation
writes `pending`, create-payment-intent writes only `processing`, and
confirm-payment writes only `completed`. -/
theorem runOps_never_failed (ops : List ApiOp) (p : String × Booking)
    (hp : p ∈ (runOps ops).bookings) : p.2.paymentStatus ≠ "failed" := by
  refine runOps_no_failed_aux ops initialStorage ?_ p hp
  intro q hq
  simp [initialStorage] at hq

/-- Witness for C5 at a concrete input. -/
theorem runOps_never_failed_witness :
    ("u1", (createBooking initialStorage sampleInsert "u1" 2025 7 0).1)
      ∈ (runOps [ApiOp.createBookingOp payloadValid "u1" 2025 7 0]).bookings ∧
    ("u1",
      (createBooking initialStorage sampleInsert "u1" 2025 7 0).1).2.paymentStatus
      ≠ "failed" :=
  ⟨by decide,
    runOps_never_failed [ApiOp.createBookingOp payloadValid "u1" 2025 7 0]
      ("u1", (createBooking initialStorage sampleInsert "u1" 2025 7 0).1)
      (by decide)⟩

/-- C4 (amended): Zod-style validation is exhaustive, not fail-fast: on
EVERY rejection the error list names every failing field; moreover a
payload whose `email` is missing (or not a string) is rejected, with an
entry naming `email`, alongside entries for all other simultaneously
invalid fields. (A malformed-but-string email is NOT rejected: the
drizzle-zod schema checks only that `email` is a string — see the
counterexample.) -/
theorem parseInsertBooking_exhaustive (p : RawPayload) :
    (∀ errs, parseInsertBooking p = Except.error errs →
      (reqStrOk p.experienceId = false → "experienceId" ∈ errs) ∧
      (reqStrOk p.firstName = false → "firstName" ∈ errs) ∧
      (reqStrOk p.lastName = false → "lastName" ∈ errs) ∧
      (reqStrOk p.email = false → "email" ∈ errs) ∧
      (reqStrOk p.phone = false → "phone" ∈ errs) ∧
      (reqStrOk p.checkinDate = false → "checkinDate" ∈ errs) ∧
      (reqStrOk p.checkoutDate = false → "checkoutDate" ∈ errs) ∧
      (reqNumOk p.participants = false → "participants" ∈ errs) ∧
      (optStrOk p.specialRequests = false → "specialRequests" ∈ errs) ∧
      (reqStrOk p.totalAmount = false → "totalAmount" ∈ errs)) ∧
    (reqStrOk p.email = false →
      ∃ errs, parseInsertBooking p = Except.error errs ∧ "email" ∈ errs) := by
  have herrs : ∀ errs, parseInsertBooking p = Except.error errs →
      errs = invalidFields p := by
    intro errs he
    by_cases hnil : invalidFields p = []
    · simp [parseInsertBooking, hnil] at he
    · simp [parseInsertBooking, hnil] at he
      exact he.symm
  constructor
  · intro errs he
    have heq := herrs errs he
    subst heq
    refine ⟨?_, ?_, ?_, ?_, ?_, ?_, ?_, ?_, ?_, ?_⟩ <;>
      (intro hf; simp [invalidFields, hf])
  · intro h
    have hmem : "email" ∈ invalidFields p := by
      simp [invalidFields, h]
    have hne : ¬ (invalidFields p = []) := by
      intro hnil
      rw [hnil] at hmem
      exact absurd hmem (List.not_mem_nil _)
    exact ⟨invalidFields p, by simp [parseInsertBooking, hne], hmem⟩

/-- Witness for C4's amended theorem at a concrete input. -/
theorem parseInsertBooking_exhaustive_witness :
    reqStrOk payloadMissingEmail.email = false ∧
    reqStrOk payloadMissingEmail.firstName = false ∧
    (∃ errs, parseInsertBooking payloadMissingEmail = Except.error errs ∧
      "email" ∈ errs ∧ "firstName" ∈ errs) := by
  obtain ⟨errs, he, hemail⟩ :=
    (parseInsertBooking_exhaustive payloadMissingEmail).2 (by decide)
  have hall := (parseInsertBooking_exhaustive payloadMissingEmail).1 errs he
  exact ⟨by decide, by decide, errs, he, hemail, hall.2.1 (by decide)⟩

/-- C4 counterexample: a payload whose `email` is the (malformed but
string-typed) value `not-an-email` passes validation outright — the schema
attaches no email-format refinement — contradicting the claim that a
malformed email is rejected with an error naming `email`. -/
theorem parseInsertBooking_malformed_email_counterexample :
    parseInsertBooking payloadBadEmail
      = Except.ok
          { experienceId := "meditation-retreats", firstName := "A",
            lastName := "B", email := "not-an-email", phone := "123",
            checkinDate := "2025-01-01", checkoutDate := "2025-01-03",
            participants := 2, specialRequests := none,
            totalAmount := "240.00" } := by
  rfl

theorem mapGet_any {α : Type} {m : List (String × α)} {k : String} {v : α}
    (h : mapGet m k = some v) : m.any (fun p => p.1 = k) = true := by
  unfold mapGet at h
  cases hf : m.find? (fun p => p.1 = k) with
  | none => rw [hf] at h; simp at h
  | some q =>
    have hs : (m.find? (fun p => p.1 = k)).isSome = true := by rw [hf]; rfl
    rcases List.find?_isSome.mp hs with ⟨x, hx, hxp⟩
    exact List.any_eq_true.mpr ⟨x, hx, hxp⟩

theorem find_ref_after_replace (id : String) (ub : Booking) (ref : String)
    (hub : ub.referenceNumber = ref) :
    ∀ m : List (String × Booking),
      m.any (fun p => p.1 = id) = true →
      (∀ p ∈ m, p.2.referenceNumber = ref → p.1 = id) →
      ((m.map (fun p => if p.1 = id then (id, ub) else p)).map (·.2)).find?
          (fun b => b.referenceNumber = ref) = some ub := by
  intro m
  induction m with
  | nil => intro hany _; simp at hany
  | cons q m ih =>
    intro hany hall
    by_cases hq : q.1 = id
    · simp [List.find?_cons, hq, hub]
    · have hqref : ¬ (q.2.referenceNumber = ref) :=
        fun hc => hq (hall q (List.mem_cons_self q m) hc)
      have hany' : m.any (fun p => p.1 = id) = true := by
        rcases List.any_eq_true.mp hany with ⟨x, hx, hxp⟩
        simp only [decide_eq_true_eq] at hxp
        rcases List.mem_cons.mp hx with rfl | hx'
        · exact absurd hxp hq
        · exact List.any_eq_true.mpr ⟨x, hx', by simp [hxp]⟩
      have hall' : ∀ p ∈ m, p.2.referenceNumber = ref → p.1 = id :=
        fun p hp => hall p (List.mem_cons_of_mem q hp)
      have hpred : (decide (q.2.referenceNumber = ref)) = false := by
        simp [hqref]
      simp only [List.map_cons, if_neg hq, List.find?_cons, hpred]
      exact ih hany' hall'

/-- C8 (amended): `updateBookingPaymentStatus` on an existing booking
changes only the two payment fields; UNCONDITIONALLY, every other field of
that booking, every other entry of the store, and the experiences map are
unchanged; and — provided no other stored booking shares the reference
number (the code never guarantees this, see C3) — retrieval by that
reference afterwards returns the updated record, i.e. the creation-time
record up to the two payment fields. -/
theorem updateBookingPaymentStatus_frame (st : MemStorage) (id status : String)
    (pid : Option String) (bk : Booking)
    (hget : mapGet st.bookings id = some bk) :
    ∃ ub, (updateBookingPaymentStatus st id status pid).1 = some ub ∧
      ub.id = bk.id ∧ ub.referenceNumber = bk.referenceNumber ∧
      ub.experienceId = bk.experienceId ∧ ub.firstName = bk.firstName ∧
      ub.lastName = bk.lastName ∧ ub.email = bk.email ∧ ub.phone = bk.phone ∧
      ub.checkinDate = bk.checkinDate ∧ ub.checkoutDate = bk.checkoutDate ∧
      ub.participants = bk.participants ∧
      ub.specialRequests = bk.specialRequests ∧
      ub.totalAmount = bk.totalAmount ∧ ub.createdAt = bk.createdAt ∧
      (∀ k, k ≠ id →
        mapGet (updateBookingPaymentStatus st id status pid).2.bookings k
          = mapGet st.bookings k) ∧
      (updateBookingPaymentStatus st id status pid).2.experiences
          = st.experiences ∧
      ((∀ p ∈ st.bookings,
          p.2.referenceNumber = bk.referenceNumber → p.1 = id) →
        getBookingByReference (updateBookingPaymentStatus st id status pid).2
          bk.referenceNumber = some ub) := by
  refine ⟨{ bk with
            paymentStatus := status,
            stripePaymentIntentId := jsStrOr pid bk.stripePaymentIntentId },
    ?_, rfl, rfl, rfl, rfl, rfl, rfl, rfl, rfl, rfl, rfl, rfl, rfl, rfl,
    ?_, ?_, ?_⟩
  · simp [updateBookingPaymentStatus, hget]
  · intro k hk
    simp only [updateBookingPaymentStatus, hget]
    exact mapGet_mapSet_ne st.bookings id k _ hk
  · simp [updateBookingPaymentStatus, hget]
  · intro huniq
    simp only [updateBookingPaymentStatus, hget, getBookingByReference]
    show ((mapSet st.bookings id _).map (·.2)).find? _ = _
    rw [mapSet, if_pos (mapGet_any hget)]
    exact find_ref_after_replace id
      { bk with
        paymentStatus := status,
        stripePaymentIntentId := jsStrOr pid bk.stripePaymentIntentId }
      bk.referenceNumber rfl st.bookings (mapGet_any hget) huniq

/-- Witness for C8's amended theorem at a concrete input. -/
theorem updateBookingPaymentStatus_frame_witness :
    mapGet storeWithIntent.bookings "b1" = some bookingWithIntent ∧
    (∀ p ∈ storeWithIntent.bookings,
      p.2.referenceNumber = bookingWithIntent.referenceNumber →
        p.1 = "b1") ∧
    (∃ ub, (updateBookingPaymentStatus storeWithIntent "b1" "completed"
          (some "pi_new")).1 = some ub ∧
      ub.id = bookingWithIntent.id ∧
      getBookingByReference (updateBookingPaymentStatus storeWithIntent "b1"
          "completed" (some "pi_new")).2 bookingWithIntent.referenceNumber
        = some ub) := by
  obtain ⟨ub, h1, hid, _, _, _, _, _, _, _, _, _, _, _, _, _, _, hfind⟩ :=
    updateBookingPaymentStatus_frame storeWithIntent "b1" "completed"
      (some "pi_new") bookingWithIntent (by decide)
  exact ⟨by decide, by decide, ub, h1, hid, hfind (by decide)⟩

/-- C8 counterexample: after two creations whose reference numbers collide
(same year, same random draw — possible per C3), retrieving by the second
booking's reference returns the FIRST booking, which differs from the
record returned at the second creation in a non-payment field (its id) —
so the retrieval clause of the claim fails without a uniqueness proviso. -/
theorem getBookingByReference_collision_counterexample :
    (getBookingByReference collidingStore
        secondColliding.referenceNumber).map Booking.id = some "u1" ∧
    secondColliding.id = "u2" ∧ ("u1" : String) ≠ "u2" :=
  ⟨by decide, by decide, by decide⟩
